import Mathlib

/-!
Shallow embedding of the WiZ Home-Assistant custom integration
(`custom_components/wiz`), covering the naming utilities
(`utils/utils.py`), the home-document lookup helpers, and the config
flow (`config_flow.py`): host validation, entry creation with
unique-id deduplication, the user step and the passive
discovery-confirmation step.

Python dict/`None` truthiness is modelled with `Option` plus explicit
truthiness tests; Python string methods (`replace`, `upper`, `lower`,
`startswith`, slicing) are modelled character-list-wise.  External
collaborators (the bulb protocol client, `is_ip_address`, the
onboarding flag, the home-config download and the persisted home
document) are passed in as explicit parameters, following the
interface contracts of the specification.
-/

namespace Wiz

/-- `homeassistant.const.CONF_HOST`. -/
def CONF_HOST : String := "host"

/-- `const.DEFAULT_NAME`. -/
def DEFAULT_NAME : String := "WiZ"

/-- Python `s[len(s)-n:]`, i.e. `s[-n:]` for `n ≤ len(s)` (and all of
`s` when `s` is shorter than `n`), on character lists. -/
def pyTakeRight (l : List Char) (n : Nat) : List Char :=
  l.drop (l.length - n)

/-- Embeds Python `str.startswith` (`pre` a prefix of `s`) on character
lists. -/
def startswith (s pre : String) : Bool :=
  pre.data.isPrefixOf s.data

/-- Embeds Python `str.lower` character-wise (the MAC strings compared
with it are ASCII). -/
def pyLower (s : String) : String :=
  String.mk (s.data.map Char.toLower)

/-- Python truthiness of an optional string (`None` and `""` are
falsy). -/
def strTruthy : Option String → Bool
  | none => false
  | some s => !(s == "")

/-- Python truthiness of an optional integer (`None` and `0` are
falsy). -/
def intTruthy : Option Int → Bool
  | none => false
  | some n => !(n == 0)

/-- `utils/utils.py` `_short_mac`: Python
`mac.replace(":", "").upper()[-6:]`.  `replace(":", "")` is the filter
dropping colons, `upper()` maps `Char.toUpper` (the inputs are ASCII),
`[-6:]` is `pyTakeRight`. -/
def _short_mac (mac : String) : String :=
  String.mk (pyTakeRight ((mac.data.filter (fun c => c ≠ ':')).map Char.toUpper) 6)

/-- Modelled from the spec: the bulb-class enum of
`pywizlight.bulblibrary` (the file `pywizlight/bulb*.py` is not under
`src/`); §9 of the spec prescribes the closed variant
{RGB, TunableWhite, Dimmable, Unknown}. -/
inductive BulbClass where
  | RGB
  | TW
  | DW
  | unknown
deriving DecidableEq, Repr

/-- Modelled from the spec: `pywizlight.bulblibrary.BulbType`
(§3 of the spec), restricted to the two fields the integration code
reads: `bulb_type` (the class) and `white_channels`. -/
structure BulbType where
  bulb_type : BulbClass
  white_channels : Nat
deriving DecidableEq, Repr

/-- Python `str(bulbtype)` applied to a `BulbType` object
(`config_flow.py` line 176).  The exact rendering text is irrelevant
to everything below — a string of any content lacks the `bulb_type`
attribute — so it is modelled by the derived `Repr` rendering. -/
def pyStr (bt : BulbType) : String :=
  reprStr bt

/-- `utils/utils.py` `name_from_bulb_type_and_mac`. -/
def name_from_bulb_type_and_mac (bulb_type : BulbType) (mac : String) : String :=
  let description :=
    if bulb_type.bulb_type = BulbClass.RGB then
      if bulb_type.white_channels = 2 then "RGBWW Tunable" else "RGBW Tunable"
    else
      "Random bulb lol"
  DEFAULT_NAME ++ " " ++ description ++ " " ++ _short_mac mac

/-- A device record of the stored home document, as read by
`utils/utils.py` (a JSON dict accessed with `.get`, so every field may
be absent). -/
structure DeviceRecord where
  mac_address : Option String
  name : Option String
  room_id : Option Int
deriving DecidableEq, Repr

/-- A room record of the stored home document, as read by
`utils/utils.py`. -/
structure Room where
  room_id : Option Int
  name : Option String
deriving DecidableEq, Repr

/-- The stored home document (`wiz_home_config` storage), restricted
to the keys `utils/utils.py` reads: `devices` and `rooms`
(`config.get("devices", [])` / `config.get("rooms", [])`). -/
structure WizConfig where
  devices : List DeviceRecord
  rooms : List Room
deriving DecidableEq, Repr

/-- `utils/utils.py` `_find_device_by_mac`: first device whose
`mac_address` (default `""`) equals the query MAC after lower-casing
both sides. -/
def _find_device_by_mac (config : WizConfig) (mac_address : String) : Option DeviceRecord :=
  config.devices.find? (fun device =>
    pyLower (device.mac_address.getD "") == pyLower mac_address)

/-- `utils/utils.py` `_find_room_by_id`: first room whose `room_id`
equals the given id. -/
def _find_room_by_id (config : WizConfig) (room_id : Int) : Option Room :=
  config.rooms.find? (fun room => room.room_id == some room_id)

/-- `utils/utils.py` `get_device_and_room_name_by_mac`.  The storage
lookup is passed in as `wiz_config` (`None` when no home config is
stored); the `try/except` wrapper has no effect in the pure model. -/
def get_device_and_room_name_by_mac (wiz_config : Option WizConfig)
    (mac_address : String) : Option String × Option String :=
  match wiz_config with
  | none => (none, none)
  | some config =>
    match _find_device_by_mac config mac_address with
    | none => (none, none)
    | some device =>
      let device_name := device.name
      let room_name :=
        if intTruthy device.room_id then
          match _find_room_by_id config (device.room_id.getD 0) with
          | some room => room.name
          | none => none
        else none
      (device_name, room_name)

/-- `utils/utils.py` `build_full_bulb_name`, with the stored home
document passed in as `wiz_config`. -/
def build_full_bulb_name (wiz_config : Option WizConfig) (bulb_type : BulbType)
    (mac_address : String) : String :=
  let dn_rn := get_device_and_room_name_by_mac wiz_config mac_address
  let device_name := dn_rn.1
  let room_name := dn_rn.2
  if !strTruthy device_name then
    name_from_bulb_type_and_mac bulb_type mac_address
  else
    let full_device_name :=
      if strTruthy room_name then
        device_name.getD "" ++ " (" ++ room_name.getD "" ++ ")"
      else device_name.getD ""
    full_device_name ++ " [" ++ name_from_bulb_type_and_mac bulb_type mac_address ++ "]"

/-- A discovered bulb (`pywizlight` `DiscoveredBulb`): IP plus MAC. -/
structure DiscoveredBulb where
  ip_address : String
  mac_address : String
deriving DecidableEq, Repr

/-- Modelled from the spec: a committed config entry of the hosting
framework (`BindingEntry`, §3/§6 of the spec):
`{unique_id, host, title, home_link?}`.  `host` is `data[CONF_HOST]`,
`wiz_home_link` is `data.get(WIZ_HOME_LINK)`. -/
structure ConfigEntry where
  unique_id : String
  host : String
  title : String
  wiz_home_link : Option String
deriving DecidableEq, Repr

/-- A Python exception escaping a flow step uncaught. -/
inductive PyExc where
  | attributeError
deriving DecidableEq, Repr

/-- The outcome of a config-flow step: a flow result handed back to
the hosting framework (`async_create_entry`, `async_abort`, or
`async_show_form`, with its `errors` dict as an association list), or
an exception the step raised without catching. -/
inductive FlowResult where
  | createEntry (title : String) (host : String) (wiz_home_link : Option String)
  | abortFlow (reason : String)
  | showForm (step_id : String) (errors : List (String × String))
  | raised (exc : PyExc)
deriving DecidableEq, Repr

/-- Observable calls on the bulb protocol client during validation.
Modelled from the spec: the client interface of §6 is
`connect(host) -> handle` / queries / `close(handle)`
(`pywizlight/bulb.py` is not under `src/`). -/
inductive BulbEvent where
  | opened
  | closed
deriving DecidableEq, Repr

/-- Outcome of the two device queries (`get_bulbtype` / `getMac`) for
a given host: either both succeed, or one raises
`WizLightConnectionError`, `WizLightTimeOutError`, or some other
exception. -/
inductive BulbQueryOutcome where
  | success (bulbtype : BulbType) (mac : String)
  | connectionError
  | timeoutError
  | unknownError
deriving DecidableEq, Repr

/-- Return value of `async_validate_and_connect_bulb`: the source's
`(bulbtype, mac, errors)` triple, plus the trace of bulb-client events
the call performed (empty when no connection was attempted). -/
structure ValidateResult where
  bulbtype : Option BulbType
  mac : Option String
  errors : List (String × String)
  events : List BulbEvent
deriving DecidableEq, Repr

/-- `config_flow.py` `WizConfigFlow.async_validate_and_connect_bulb`.
`isIp` stands for the external `homeassistant.util.network.is_ip_address`
(address-syntax oracle), `net` for the outcome of the device
round-trip at a given host.  The spec's error names map to the
source's strings: `HostRequired` ↦ `"host_required"`, `InvalidAddress`
↦ `"no_ip"`, `ConnectionFailed` ↦ `"cannot_connect"`, `Timeout` ↦
`"bulb_time_out"`, `Unknown` ↦ `"unknown"`.  Constructing `wizlight(host)`
and querying it acquires the network resource (`.opened`); no branch of
the source releases it. -/
def async_validate_and_connect_bulb (isIp : String → Bool)
    (net : String → BulbQueryOutcome) (host : String) : ValidateResult :=
  if host = "" then
    ⟨none, none, [(CONF_HOST, "host_required")], []⟩
  else if isIp host = false then
    ⟨none, none, [(CONF_HOST, "no_ip")], []⟩
  else
    match net host with
    | .success bulbtype mac => ⟨some bulbtype, some mac, [], [.opened]⟩
    | .connectionError => ⟨none, none, [("base", "cannot_connect")], [.opened]⟩
    | .timeoutError => ⟨none, none, [("base", "bulb_time_out")], [.opened]⟩
    | .unknownError => ⟨none, none, [("base", "unknown")], [.opened]⟩

/-- `utils/config_flow_helpers.py` `validate_wiz_home_link`. -/
def validate_wiz_home_link (link : String) : Bool :=
  startswith link "https://wiz-s3-local-integration-dev-artifacts"

/-- `config_flow.py` `WizConfigFlow.async_create_bulb_entry`, with the
stored home document passed in as `wiz_config` and the committed
entries as `entries`.  The framework primitives are modelled from the
spec (§3/§6): `async_set_unique_id(mac)` followed by
`_abort_if_unique_id_configured(updates={CONF_HOST: host})` updates the
host of an existing entry with the same unique id in place and aborts
the flow; otherwise `async_create_entry` appends a new entry.  Returns
the resulting entry list together with the flow result. -/
def async_create_bulb_entry (wiz_config : Option WizConfig)
    (entries : List ConfigEntry) (host : String) (bulbtype : BulbType)
    (mac : String) : List ConfigEntry × FlowResult :=
  let wiz_home_link :=
    (entries.find? (fun entry => entry.wiz_home_link.isSome)).bind
      (fun entry => entry.wiz_home_link)
  if entries.any (fun entry => entry.unique_id == mac) then
    (entries.map (fun entry =>
        if entry.unique_id == mac then { entry with host := host } else entry),
     .abortFlow "already_configured")
  else
    let title := build_full_bulb_name wiz_config bulbtype mac
    (entries ++ [{ unique_id := mac, host := host, title := title,
                   wiz_home_link := wiz_home_link }],
     .createEntry title host wiz_home_link)

/-- `utils/utils.py` `name_from_bulb_type_and_mac` as invoked with a
*string* `bulb_type` argument (the discovery path passes
`str(bulbtype)`): the very first attribute access
`bulb_type.bulb_type` raises `AttributeError` on a `str`, before any
name is produced. -/
def name_from_bulb_type_and_mac_strArg (_bulb_type_str : String)
    (_mac : String) : Except PyExc String :=
  .error .attributeError

/-- `utils/utils.py` `build_full_bulb_name` as invoked with a *string*
`bulb_type` argument.  `get_device_and_room_name_by_mac` is evaluated
first and cannot raise (its body is wrapped in `try/except`); both
continuations then call `name_from_bulb_type_and_mac`, whose attribute
access raises and propagates uncaught. -/
def build_full_bulb_name_strArg (wiz_config : Option WizConfig)
    (bulb_type_str : String) (mac_address : String) : Except PyExc String :=
  let dn_rn := get_device_and_room_name_by_mac wiz_config mac_address
  let device_name := dn_rn.1
  let room_name := dn_rn.2
  if !strTruthy device_name then
    name_from_bulb_type_and_mac_strArg bulb_type_str mac_address
  else
    let full_device_name :=
      if strTruthy room_name then
        device_name.getD "" ++ " (" ++ room_name.getD "" ++ ")"
      else device_name.getD ""
    match name_from_bulb_type_and_mac_strArg bulb_type_str mac_address with
    | .ok bulb_type_string =>
      .ok (full_device_name ++ " [" ++ bulb_type_string ++ "]")
    | .error e => .error e

/-- `config_flow.py` `WizConfigFlow.async_create_bulb_entry` as
invoked from the discovery path (`config_flow.py` line 176), where the
`bulbtype` argument is the *string* `str(bulbtype)` rather than the
`BulbType` object (the user path, line 213, passes the object).  The
wiz-home-link scan and the unique-id dedup/abort behave exactly as in
`async_create_bulb_entry` (they precede the title computation);
computing the title for a fresh MAC, however, raises `AttributeError`
inside `build_full_bulb_name`, so `async_create_entry` is never
reached and the exception propagates out of the step. -/
def async_create_bulb_entry_strArg (wiz_config : Option WizConfig)
    (entries : List ConfigEntry) (host : String) (bulb_type_str : String)
    (mac : String) : List ConfigEntry × FlowResult :=
  let wiz_home_link :=
    (entries.find? (fun entry => entry.wiz_home_link.isSome)).bind
      (fun entry => entry.wiz_home_link)
  if entries.any (fun entry => entry.unique_id == mac) then
    (entries.map (fun entry =>
        if entry.unique_id == mac then { entry with host := host } else entry),
     .abortFlow "already_configured")
  else
    match build_full_bulb_name_strArg wiz_config bulb_type_str mac with
    | .error e => (entries, .raised e)
    | .ok title =>
      (entries ++ [{ unique_id := mac, host := host, title := title,
                     wiz_home_link := wiz_home_link }],
       .createEntry title host wiz_home_link)

/-- The `user_input` dict of the user step: `CONF_HOST` plus the
optional `WIZ_HOME_LINK` field. -/
structure UserInput where
  host : String
  wiz_link : Option String
deriving DecidableEq, Repr

/-- Result of the user step: the flow result, whether a home-config
download was attempted, and the bulb-client events performed. -/
structure UserStepOut where
  result : FlowResult
  downloaded : Bool
  events : List BulbEvent
deriving DecidableEq, Repr

/-- Result of the discovery-confirmation step: the flow result and the
bulb-client events performed. -/
structure DiscoveryStepOut where
  result : FlowResult
  events : List BulbEvent
deriving DecidableEq, Repr

/-- Tail of `config_flow.py` `async_step_user` after the link check
passed with no errors: validate the host and, on full success, create
the entry; otherwise re-show the `user` form with the validation
errors. -/
def userValidateAndCreate (wiz_config : Option WizConfig)
    (entries : List ConfigEntry) (isIp : String → Bool)
    (net : String → BulbQueryOutcome) (host : String)
    (downloaded : Bool) : UserStepOut :=
  let v := async_validate_and_connect_bulb isIp net host
  match v.errors, v.bulbtype, v.mac with
  | [], some bulbtype, some mac =>
    ⟨(async_create_bulb_entry wiz_config entries host bulbtype mac).2,
     downloaded, v.events⟩
  | errs, _, _ => ⟨.showForm "user" errs, downloaded, v.events⟩

/-- `config_flow.py` `WizConfigFlow.async_step_user`.  `first_setup`
is the result of `_is_first_setup` (storage state),
`download_ok` the outcome of `async_download_and_validate_wiz_home`
for a given url.  During first setup the link must start with the
allow-listed prefix string; by Python `or` short-circuiting, the
download is attempted only when the prefix check passed. -/
def async_step_user (wiz_config : Option WizConfig)
    (entries : List ConfigEntry) (first_setup : Bool)
    (download_ok : String → Bool) (isIp : String → Bool)
    (net : String → BulbQueryOutcome)
    (user_input : Option UserInput) : UserStepOut :=
  match user_input with
  | none => ⟨.showForm "user" [], false, []⟩
  | some input =>
    if first_setup then
      let wiz_link := input.wiz_link.getD ""
      if startswith wiz_link "https://wiz-s3-local-integration-dev-artifacts" = false then
        ⟨.showForm "user" [("base", "invalid_link")], false, []⟩
      else if download_ok wiz_link = false then
        ⟨.showForm "user" [("base", "invalid_link")], true, []⟩
      else
        userValidateAndCreate wiz_config entries isIp net input.host true
    else
      userValidateAndCreate wiz_config entries isIp net input.host false

/-- `config_flow.py` `WizConfigFlow.async_step_discovery_confirm`.
`onboarded` is `onboarding.async_is_onboarded(self.hass)`,
`discovered` the `_discovered_device` field, `user_input` the
confirmation-form submission (`None` on the first invocation).
Validation runs when a form submission arrived OR the environment is
not yet onboarded; any validation failure aborts with
`cannot_connect`; otherwise the confirmation form is shown.  On full
validation success the source calls
`self.async_create_bulb_entry(str(ip_address), str(bulbtype), str(mac))`
(line 176) — coercing the `BulbType` object to its string rendering —
embedded by `async_create_bulb_entry_strArg` with `pyStr bulbtype`
(`str(ip_address)` and `str(mac)` are identity on strings). -/
def async_step_discovery_confirm (wiz_config : Option WizConfig)
    (entries : List ConfigEntry) (onboarded : Bool) (isIp : String → Bool)
    (net : String → BulbQueryOutcome) (discovered : Option DiscoveredBulb)
    (user_input : Option Unit) : DiscoveryStepOut :=
  match discovered with
  | none => ⟨.abortFlow "no_device_found", []⟩
  | some device =>
    if user_input.isSome || !onboarded then
      let v := async_validate_and_connect_bulb isIp net device.ip_address
      match v.errors, v.bulbtype, v.mac with
      | [], some bulbtype, some mac =>
        ⟨(async_create_bulb_entry_strArg wiz_config entries device.ip_address
            (pyStr bulbtype) mac).2,
         v.events⟩
      | _, _, _ => ⟨.abortFlow "cannot_connect", v.events⟩
    else ⟨.showForm "discovery_confirm" [], []⟩

/-! ### Concrete fixtures used in witnesses and counterexamples -/

/-- An RGB bulb with two white channels, as in the spec scenarios. -/
def bt0 : BulbType := ⟨BulbClass.RGB, 2⟩

/-- A home document whose only device stores its MAC without colon
delimiters. -/
def configNoColons : WizConfig :=
  ⟨[⟨some "aabbcc112233", some "Kitchen Light", none⟩], []⟩

/-- A home document whose only device stores its MAC colon-delimited. -/
def configColons : WizConfig :=
  ⟨[⟨some "aa:bb:cc:11:22:33", some "Kitchen Light", none⟩], []⟩

/-- A home document whose only device matches the query MAC but
carries an empty `name`. -/
def configEmptyName : WizConfig :=
  ⟨[⟨some "aa:bb:cc:11:22:33", some "", none⟩], []⟩

/-- The Kitchen scenario from the spec: device in room 7, room 7 named
`"Kitchen"`. -/
def configKitchen : WizConfig :=
  ⟨[⟨some "aa:bb:cc:11:22:33", some "Kitchen Light", some 7⟩],
   [⟨some 7, some "Kitchen"⟩]⟩

/-- An address-syntax oracle accepting everything. -/
def ipYes : String → Bool := fun _ => true

/-- A device round-trip oracle that always succeeds with `bt0` and a
fixed MAC. -/
def netSuccess : String → BulbQueryOutcome := fun _ => .success bt0 "a8bb5006033d"

/-- A discovered bulb used in discovery-step fixtures. -/
def discDevice : DiscoveredBulb := ⟨"192.168.0.5", "a8:bb:50:06:03:3d"⟩

/-- The hexadecimal digit characters (either case). -/
def hexDigitChars : List Char :=
  ("0123456789abcdef" ++ "ABCDEF").data

/-- The upper-case hexadecimal digit characters. -/
def upperHexChars : List Char :=
  "0123456789ABCDEF".data

/-- A well-formed MAC address string: dropping colon delimiters leaves
exactly 12 hexadecimal digit characters. -/
def isWellFormedMac (s : String) : Prop :=
  (s.data.filter (fun c => c ≠ ':')).length = 12 ∧
  ∀ c ∈ s.data.filter (fun c => c ≠ ':'), c ∈ hexDigitChars

/-- Two strings represent the same MAC up to letter case and colon
delimiting: dropping colons and upper-casing yields the same character
sequence. -/
def sameMacUpToCaseAndColons (s t : String) : Prop :=
  (s.data.filter (fun c => c ≠ ':')).map Char.toUpper =
  (t.data.filter (fun c => c ≠ ':')).map Char.toUpper

instance decidableIsWellFormedMac (s : String) : Decidable (isWellFormedMac s) := by
  unfold isWellFormedMac
  exact inferInstance

instance decidableSameMac (s t : String) : Decidable (sameMacUpToCaseAndColons s t) := by
  unfold sameMacUpToCaseAndColons
  exact inferInstance

/-! ### Helper lemmas -/

@[simp]
theorem strTruthy_none : strTruthy none = false := rfl

@[simp]
theorem strTruthy_some (s : String) : strTruthy (some s) = !(s == "") := rfl

@[simp]
theorem intTruthy_none : intTruthy none = false := rfl

@[simp]
theorem intTruthy_some (n : Int) : intTruthy (some n) = !(n == 0) := rfl

/-! ### C4 -/

/-- C4: for every host string that is empty or not accepted by the
address-syntax check, `async_validate_and_connect_bulb` returns the
field-level input error (`host_required` for empty, `no_ip` — the
spec's `InvalidAddress` — for non-IP strings, hostnames included) and
performs no bulb-client call at all (`events = []`). -/
theorem validate_rejects_bad_host_without_connecting
    (isIp : String → Bool) (net : String → BulbQueryOutcome) (host : String) :
    (host = "" →
      async_validate_and_connect_bulb isIp net host =
        ⟨none, none, [(CONF_HOST, "host_required")], []⟩) ∧
    (host ≠ "" → isIp host = false →
      async_validate_and_connect_bulb isIp net host =
        ⟨none, none, [(CONF_HOST, "no_ip")], []⟩) := by
  constructor
  · intro h
    simp [async_validate_and_connect_bulb, h]
  · intro h hip
    simp [async_validate_and_connect_bulb, h, hip]

/-- Witness for C4 at the hostname `"bulb.local"` with an oracle that
rejects it as an IP literal. -/
theorem validate_rejects_bad_host_without_connecting_witness :
    ("bulb.local" ≠ "" ∧ (fun _ : String => false) "bulb.local" = false) ∧
    async_validate_and_connect_bulb (fun _ => false) netSuccess "bulb.local" =
      ⟨none, none, [(CONF_HOST, "no_ip")], []⟩ :=
  ⟨⟨by decide, rfl⟩,
   (validate_rejects_bad_host_without_connecting (fun _ => false) netSuccess
      "bulb.local").2 (by decide) rfl⟩

/-! ### C8 -/

/-- Upper-casing a hexadecimal digit yields an upper-case hexadecimal
digit. -/
theorem toUpper_hexDigit_mem : ∀ c ∈ hexDigitChars, Char.toUpper c ∈ upperHexChars := by
  decide

/-- C8: for every well-formed MAC address string, `_short_mac` yields
exactly 6 upper-case hexadecimal characters, and any two
representations of the same MAC differing only in letter case or colon
delimiting yield the same short identifier. -/
theorem short_mac_six_upper_hex_and_invariant :
    (∀ s : String, isWellFormedMac s →
      (_short_mac s).data.length = 6 ∧
      ∀ c ∈ (_short_mac s).data, c ∈ upperHexChars) ∧
    (∀ s t : String, sameMacUpToCaseAndColons s t → _short_mac s = _short_mac t) := by
  constructor
  · rintro s ⟨hlen, hhex⟩
    constructor
    · have h12 : ((s.data.filter (fun c => c ≠ ':')).map Char.toUpper).length = 12 := by
        rw [List.length_map]
        exact hlen
      show (pyTakeRight ((s.data.filter (fun c => c ≠ ':')).map Char.toUpper) 6).length = 6
      unfold pyTakeRight
      rw [List.length_drop, h12]
    · intro c hc
      have hc' : c ∈ (s.data.filter (fun c => c ≠ ':')).map Char.toUpper :=
        List.drop_subset _ _ hc
      obtain ⟨d, hd, hdc⟩ := List.mem_map.1 hc'
      exact hdc ▸ toUpper_hexDigit_mem d (hhex d hd)
  · intro s t h
    exact congrArg (fun l => String.mk (pyTakeRight l 6)) h

/-- Witness for C8 at two representations of the MAC
`a8:bb:50:06:03:3d`. -/
theorem short_mac_six_upper_hex_and_invariant_witness :
    isWellFormedMac "A8:bb:50:06:03:3d" ∧
    ((_short_mac "A8:bb:50:06:03:3d").data.length = 6 ∧
      ∀ c ∈ (_short_mac "A8:bb:50:06:03:3d").data, c ∈ upperHexChars) ∧
    sameMacUpToCaseAndColons "A8:bb:50:06:03:3d" "a8bb5006033d" ∧
    _short_mac "A8:bb:50:06:03:3d" = _short_mac "a8bb5006033d" :=
  ⟨by decide,
   short_mac_six_upper_hex_and_invariant.1 "A8:bb:50:06:03:3d" (by decide),
   by decide,
   short_mac_six_upper_hex_and_invariant.2 "A8:bb:50:06:03:3d" "a8bb5006033d" (by decide)⟩

/-! ### C10 -/

/-- C10: home-document device lookup is case-insensitive but
delimiter-sensitive: a record is returned only if its stored
`mac_address` equals the query lower-cased character for character; a
record stored without colons never matches a colon-delimited query and
vice versa, in which case name resolution falls back to the base
name. -/
theorem find_device_lowercase_exact_match :
    (∀ (config : WizConfig) (mac : String) (d : DeviceRecord),
      _find_device_by_mac config mac = some d →
      pyLower (d.mac_address.getD "") = pyLower mac) ∧
    _find_device_by_mac configColons "AA:BB:CC:11:22:33" =
      some ⟨some "aa:bb:cc:11:22:33", some "Kitchen Light", none⟩ ∧
    _find_device_by_mac configNoColons "aa:bb:cc:11:22:33" = none ∧
    _find_device_by_mac configColons "aabbcc112233" = none ∧
    build_full_bulb_name (some configNoColons) bt0 "aa:bb:cc:11:22:33" =
      name_from_bulb_type_and_mac bt0 "aa:bb:cc:11:22:33" ∧
    build_full_bulb_name (some configColons) bt0 "aabbcc112233" =
      name_from_bulb_type_and_mac bt0 "aabbcc112233" := by
  refine ⟨?_, by decide, by decide, by decide, by decide, by decide⟩
  intro config mac d h
  have hp := List.find?_some h
  simpa using hp

/-- Witness for C10: the case-insensitive match instantiated at the
colon-delimited fixture. -/
theorem find_device_lowercase_exact_match_witness :
    _find_device_by_mac configColons "AA:BB:CC:11:22:33" =
      some ⟨some "aa:bb:cc:11:22:33", some "Kitchen Light", none⟩ ∧
    pyLower ((some "aa:bb:cc:11:22:33" : Option String).getD "") =
      pyLower "AA:BB:CC:11:22:33" :=
  ⟨by decide,
   find_device_lowercase_exact_match.1 configColons "AA:BB:CC:11:22:33"
     ⟨some "aa:bb:cc:11:22:33", some "Kitchen Light", none⟩ (by decide)⟩

/-! ### C3 -/

/-- C3 counterexample: a home document containing a device record that
matches the query MAC but has an empty `name`.  Contrary to the claim,
the resolved title is the base name alone, not
`"<device_name> [<base-name>]"` (which here would be
`" [<base-name>]"`). -/
theorem build_name_matching_device_counterexample :
    _find_device_by_mac configEmptyName "aa:bb:cc:11:22:33" =
      some ⟨some "aa:bb:cc:11:22:33", some "", none⟩ ∧
    build_full_bulb_name (some configEmptyName) bt0 "aa:bb:cc:11:22:33" =
      name_from_bulb_type_and_mac bt0 "aa:bb:cc:11:22:33" ∧
    build_full_bulb_name (some configEmptyName) bt0 "aa:bb:cc:11:22:33" ≠
      "" ++ " [" ++ name_from_bulb_type_and_mac bt0 "aa:bb:cc:11:22:33" ++ "]" := by
  decide

/-- C3 (amended): if no device record matches the MAC — or the first
matching record's name is missing or empty — the resolved title is the
base name alone; if the first matching record has a non-empty name,
the title is `"<device_name>[ (<room_name>)] [<base-name>]"`, the room
part being present exactly when the record's `room_id` is truthy,
resolves to a room of the document, and that room has a non-empty
name. -/
theorem build_full_bulb_name_resolution
    (bt : BulbType) (mac : String) (config : WizConfig) :
    (_find_device_by_mac config mac = none →
      build_full_bulb_name (some config) bt mac =
        name_from_bulb_type_and_mac bt mac) ∧
    (∀ d, _find_device_by_mac config mac = some d → strTruthy d.name = false →
      build_full_bulb_name (some config) bt mac =
        name_from_bulb_type_and_mac bt mac) ∧
    (∀ d, _find_device_by_mac config mac = some d → strTruthy d.name = true →
      intTruthy d.room_id = false →
      build_full_bulb_name (some config) bt mac =
        d.name.getD "" ++ " [" ++ name_from_bulb_type_and_mac bt mac ++ "]") ∧
    (∀ d, _find_device_by_mac config mac = some d → strTruthy d.name = true →
      intTruthy d.room_id = true →
      _find_room_by_id config (d.room_id.getD 0) = none →
      build_full_bulb_name (some config) bt mac =
        d.name.getD "" ++ " [" ++ name_from_bulb_type_and_mac bt mac ++ "]") ∧
    (∀ d r, _find_device_by_mac config mac = some d → strTruthy d.name = true →
      intTruthy d.room_id = true →
      _find_room_by_id config (d.room_id.getD 0) = some r →
      strTruthy r.name = false →
      build_full_bulb_name (some config) bt mac =
        d.name.getD "" ++ " [" ++ name_from_bulb_type_and_mac bt mac ++ "]") ∧
    (∀ d r, _find_device_by_mac config mac = some d → strTruthy d.name = true →
      intTruthy d.room_id = true →
      _find_room_by_id config (d.room_id.getD 0) = some r →
      strTruthy r.name = true →
      build_full_bulb_name (some config) bt mac =
        d.name.getD "" ++ " (" ++ r.name.getD "" ++ ")" ++ " [" ++
          name_from_bulb_type_and_mac bt mac ++ "]") := by
  refine ⟨?_, ?_, ?_, ?_, ?_, ?_⟩
  · intro h
    simp [build_full_bulb_name, get_device_and_room_name_by_mac, h]
  · intro d hd hn
    simp [build_full_bulb_name, get_device_and_room_name_by_mac, hd, hn]
  · intro d hd hn hr
    simp [build_full_bulb_name, get_device_and_room_name_by_mac, hd, hn, hr]
  · intro d hd hn hr hroom
    simp [build_full_bulb_name, get_device_and_room_name_by_mac, hd, hn, hr, hroom]
  · intro d r hd hn hr hroom hrn
    simp [build_full_bulb_name, get_device_and_room_name_by_mac, hd, hn, hr, hroom, hrn]
  · intro d r hd hn hr hroom hrn
    simp [build_full_bulb_name, get_device_and_room_name_by_mac, hd, hn, hr, hroom, hrn]

/-- Witness for C3 (amended): the Kitchen scenario of the spec. -/
theorem build_full_bulb_name_resolution_witness :
    (_find_device_by_mac configKitchen "aa:bb:cc:11:22:33" =
        some ⟨some "aa:bb:cc:11:22:33", some "Kitchen Light", some 7⟩ ∧
      strTruthy (some "Kitchen Light") = true ∧
      intTruthy (some 7) = true ∧
      _find_room_by_id configKitchen 7 = some ⟨some 7, some "Kitchen"⟩ ∧
      strTruthy (some "Kitchen") = true) ∧
    build_full_bulb_name (some configKitchen) bt0 "aa:bb:cc:11:22:33" =
      "Kitchen Light" ++ " (" ++ "Kitchen" ++ ")" ++ " [" ++
        name_from_bulb_type_and_mac bt0 "aa:bb:cc:11:22:33" ++ "]" :=
  ⟨⟨by decide, by decide, by decide, by decide, by decide⟩,
   (build_full_bulb_name_resolution bt0 "aa:bb:cc:11:22:33" configKitchen).2.2.2.2.2
     ⟨some "aa:bb:cc:11:22:33", some "Kitchen Light", some 7⟩ ⟨some 7, some "Kitchen"⟩
     (by decide) (by decide) (by decide) (by decide) (by decide)⟩

/-! ### C1 -/

/-- Committing a fresh MAC appends exactly one new entry and returns
`createEntry`. -/
theorem create_entry_fresh (wiz_config : Option WizConfig)
    (entries : List ConfigEntry) (host : String) (bt : BulbType) (mac : String)
    (hfresh : ∀ e ∈ entries, e.unique_id ≠ mac) :
    async_create_bulb_entry wiz_config entries host bt mac =
      (entries ++ [⟨mac, host, build_full_bulb_name wiz_config bt mac,
          (entries.find? (fun e => e.wiz_home_link.isSome)).bind
            (fun e => e.wiz_home_link)⟩],
       .createEntry (build_full_bulb_name wiz_config bt mac) host
         ((entries.find? (fun e => e.wiz_home_link.isSome)).bind
           (fun e => e.wiz_home_link))) := by
  have hany : (entries.any fun e => e.unique_id == mac) = false := by
    rw [List.any_eq_false]
    intro e he
    simp [hfresh e he]
  simp [async_create_bulb_entry, hany]

/-- Committing a MAC that is already bound updates the bound entry's
host in place and aborts. -/
theorem create_entry_rebind (wiz_config : Option WizConfig) (mac host2 : String)
    (bt2 : BulbType) (l : List ConfigEntry) (x : ConfigEntry)
    (hl : ∀ e ∈ l, e.unique_id ≠ mac) (hx : x.unique_id = mac) :
    async_create_bulb_entry wiz_config (l ++ [x]) host2 bt2 mac =
      (l ++ [{ x with host := host2 }], .abortFlow "already_configured") := by
  have hany : ((l ++ [x]).any fun e => e.unique_id == mac) = true := by
    simp [List.any_append, hx]
  have hmapl : (l.map (fun entry => if entry.unique_id = mac then
      ({ entry with host := host2 } : ConfigEntry) else entry)) = l := by
    have hcong : ∀ e ∈ l,
        (if e.unique_id = mac then ({ e with host := host2 } : ConfigEntry) else e) =
          id e := by
      intro e he
      simp [hl e he]
    rw [List.map_congr_left hcong, List.map_id]
  simp [async_create_bulb_entry, hany, hx, hmapl]

/-- C1: starting from a state where the MAC is unbound, committing a
binding entry twice for the same MAC with two different hosts leaves
exactly one committed entry whose `unique_id` is that MAC; its host is
the second (latest) host, the second commit aborts entry creation
(`already_configured`) and adds no entry. -/
theorem create_bulb_entry_idempotent_rebind
    (wiz_config : Option WizConfig) (entries : List ConfigEntry)
    (mac host1 host2 : String) (bt1 bt2 : BulbType)
    (hfresh : ∀ e ∈ entries, e.unique_id ≠ mac) :
    ((async_create_bulb_entry wiz_config
        (async_create_bulb_entry wiz_config entries host1 bt1 mac).1
        host2 bt2 mac).1.countP (fun e => e.unique_id == mac) = 1) ∧
    (∀ e ∈ (async_create_bulb_entry wiz_config
        (async_create_bulb_entry wiz_config entries host1 bt1 mac).1
        host2 bt2 mac).1, e.unique_id = mac → e.host = host2) ∧
    ((async_create_bulb_entry wiz_config
        (async_create_bulb_entry wiz_config entries host1 bt1 mac).1
        host2 bt2 mac).2 = .abortFlow "already_configured") ∧
    ((async_create_bulb_entry wiz_config
        (async_create_bulb_entry wiz_config entries host1 bt1 mac).1
        host2 bt2 mac).1.length =
      (async_create_bulb_entry wiz_config entries host1 bt1 mac).1.length) := by
  have h1 := create_entry_fresh wiz_config entries host1 bt1 mac hfresh
  have h2 := create_entry_rebind wiz_config mac host2 bt2 entries
    ⟨mac, host1, build_full_bulb_name wiz_config bt1 mac,
      (entries.find? (fun e => e.wiz_home_link.isSome)).bind
        (fun e => e.wiz_home_link)⟩ hfresh rfl
  rw [h1]
  simp only [h2]
  have hcount0 : entries.countP (fun e => e.unique_id == mac) = 0 := by
    rw [List.countP_eq_zero]
    intro e he
    simp [hfresh e he]
  refine ⟨?_, ?_, by simp, ?_⟩
  · rw [List.countP_append, hcount0]
    simp [List.countP_cons]
  · intro e he hmac
    rcases List.mem_append.1 he with h | h
    · exact absurd hmac (hfresh e h)
    · rcases List.mem_singleton.1 h with rfl
      rfl
  · simp

/-- Witness for C1: two commits for the same MAC from the empty entry
list. -/
theorem create_bulb_entry_idempotent_rebind_witness :
    (∀ e ∈ ([] : List ConfigEntry), e.unique_id ≠ "a8bb5006033d") ∧
    (((async_create_bulb_entry none
        (async_create_bulb_entry none [] "10.0.0.5" bt0 "a8bb5006033d").1
        "10.0.0.6" bt0 "a8bb5006033d").1.countP
          (fun e => e.unique_id == "a8bb5006033d") = 1) ∧
      (∀ e ∈ (async_create_bulb_entry none
          (async_create_bulb_entry none [] "10.0.0.5" bt0 "a8bb5006033d").1
          "10.0.0.6" bt0 "a8bb5006033d").1,
        e.unique_id = "a8bb5006033d" → e.host = "10.0.0.6") ∧
      ((async_create_bulb_entry none
          (async_create_bulb_entry none [] "10.0.0.5" bt0 "a8bb5006033d").1
          "10.0.0.6" bt0 "a8bb5006033d").2 = .abortFlow "already_configured") ∧
      ((async_create_bulb_entry none
          (async_create_bulb_entry none [] "10.0.0.5" bt0 "a8bb5006033d").1
          "10.0.0.6" bt0 "a8bb5006033d").1.length =
        (async_create_bulb_entry none [] "10.0.0.5" bt0 "a8bb5006033d").1.length)) :=
  ⟨by simp,
   create_bulb_entry_idempotent_rebind none [] "a8bb5006033d" "10.0.0.5" "10.0.0.6"
     bt0 bt0 (by simp)⟩

/-! ### C2 -/

/-- The title computation with a string `bulb_type` argument raises
`AttributeError` on every branch. -/
theorem build_full_bulb_name_strArg_raises (wiz_config : Option WizConfig)
    (bulb_type_str : String) (mac : String) :
    build_full_bulb_name_strArg wiz_config bulb_type_str mac =
      .error .attributeError := by
  simp [build_full_bulb_name_strArg, name_from_bulb_type_and_mac_strArg]

/-- Entry creation invoked with `str(bulbtype)` for a not-yet-bound
MAC raises `AttributeError` and commits nothing. -/
theorem create_entry_strArg_fresh_raises (wiz_config : Option WizConfig)
    (entries : List ConfigEntry) (host bulb_type_str mac : String)
    (hfresh : ∀ e ∈ entries, e.unique_id ≠ mac) :
    async_create_bulb_entry_strArg wiz_config entries host bulb_type_str mac =
      (entries, .raised .attributeError) := by
  have hany : (entries.any fun e => e.unique_id == mac) = false := by
    rw [List.any_eq_false]
    intro e he
    simp [hfresh e he]
  simp [async_create_bulb_entry_strArg, hany, build_full_bulb_name_strArg_raises]

/-- C2 counterexample: with the environment already onboarded and no
form submission, the discovery-confirmation step shows the
confirmation form and performs no validation (the claim says it skips
the form and proceeds to entry creation); and during first-time setup
(not yet onboarded) the very first invocation validates eagerly but
then raises `AttributeError` while computing the title from the
`str(bulbtype)` argument, so no entry is created on either side. -/
theorem discovery_confirm_onboarded_counterexample :
    async_step_discovery_confirm none [] true ipYes netSuccess
        (some discDevice) none =
      ⟨.showForm "discovery_confirm" [], []⟩ ∧
    (async_step_discovery_confirm none [] false ipYes netSuccess
        (some discDevice) none).result =
      .raised .attributeError := by
  constructor
  · decide
  · simp [async_step_discovery_confirm, async_validate_and_connect_bulb,
      ipYes, netSuccess, discDevice,
      create_entry_strArg_fresh_raises none [] "192.168.0.5"
        (pyStr bt0) "a8bb5006033d" (by simp)]

/-- C2 (amended): during first-time setup (environment not yet
onboarded), a passive discovery hint skips the human confirmation form
and immediately performs the eager validation (the device is
contacted); when the environment is already onboarded, the first
invocation shows the confirmation form without touching the device,
and only the second invocation (form submission) performs the eager
validation.  In either eager case a successful validation of a
not-yet-bound device does not reach entry creation: the step passes
`str(bulbtype)` into `async_create_bulb_entry`, whose title
computation raises `AttributeError`, so the step raises and the entry
list is left unchanged. -/
theorem discovery_confirm_onboarding_behaviour
    (wiz_config : Option WizConfig) (entries : List ConfigEntry)
    (device : DiscoveredBulb) (isIp : String → Bool)
    (net : String → BulbQueryOutcome) (bt : BulbType) (mac : String)
    (hhost : device.ip_address ≠ "") (hip : isIp device.ip_address = true)
    (hnet : net device.ip_address = .success bt mac)
    (hfresh : ∀ e ∈ entries, e.unique_id ≠ mac) :
    (async_step_discovery_confirm wiz_config entries false isIp net
        (some device) none =
      ⟨.raised .attributeError, [BulbEvent.opened]⟩) ∧
    (async_step_discovery_confirm wiz_config entries true isIp net
        (some device) none =
      ⟨.showForm "discovery_confirm" [], []⟩) ∧
    (async_step_discovery_confirm wiz_config entries true isIp net
        (some device) (some ()) =
      ⟨.raised .attributeError, [BulbEvent.opened]⟩) ∧
    ((async_create_bulb_entry_strArg wiz_config entries device.ip_address
        (pyStr bt) mac).1 = entries) := by
  have hcreate := create_entry_strArg_fresh_raises wiz_config entries
    device.ip_address (pyStr bt) mac hfresh
  refine ⟨?_, ?_, ?_, ?_⟩
  · simp [async_step_discovery_confirm, async_validate_and_connect_bulb,
      hhost, hip, hnet, hcreate]
  · simp [async_step_discovery_confirm]
  · simp [async_step_discovery_confirm, async_validate_and_connect_bulb,
      hhost, hip, hnet, hcreate]
  · rw [hcreate]

/-- Witness for C2 (amended) at the concrete discovery fixture. -/
theorem discovery_confirm_onboarding_behaviour_witness :
    (discDevice.ip_address ≠ "" ∧ ipYes discDevice.ip_address = true ∧
      netSuccess discDevice.ip_address = .success bt0 "a8bb5006033d" ∧
      (∀ e ∈ ([] : List ConfigEntry), e.unique_id ≠ "a8bb5006033d")) ∧
    (async_step_discovery_confirm none [] false ipYes netSuccess
        (some discDevice) none =
      ⟨.raised .attributeError, [BulbEvent.opened]⟩) ∧
    (async_step_discovery_confirm none [] true ipYes netSuccess
        (some discDevice) none =
      ⟨.showForm "discovery_confirm" [], []⟩) ∧
    (async_step_discovery_confirm none [] true ipYes netSuccess
        (some discDevice) (some ()) =
      ⟨.raised .attributeError, [BulbEvent.opened]⟩) ∧
    ((async_create_bulb_entry_strArg none [] discDevice.ip_address
        (pyStr bt0) "a8bb5006033d").1 = ([] : List ConfigEntry)) :=
  ⟨⟨by decide, rfl, rfl, by simp⟩,
   discovery_confirm_onboarding_behaviour none [] discDevice ipYes netSuccess
     bt0 "a8bb5006033d" (by decide) rfl rfl (by simp)⟩

/-! ### C5 -/

/-- C5: when validation of the chosen host times out, the interactive
user path re-presents the `user` form with the base-level error
`bulb_time_out` (no abort), whereas the passive
discovery-confirmation path aborts the whole flow with
`cannot_connect` — both when already onboarded (form submission) and
during first-time setup (eager validation). -/
theorem timeout_interactive_form_passive_abort
    (wiz_config : Option WizConfig) (entries : List ConfigEntry)
    (download_ok isIp : String → Bool) (net : String → BulbQueryOutcome)
    (host : String) (device : DiscoveredBulb)
    (hhost : host ≠ "") (hip : isIp host = true)
    (hnet : net host = .timeoutError)
    (hdhost : device.ip_address ≠ "") (hdip : isIp device.ip_address = true)
    (hdnet : net device.ip_address = .timeoutError) :
    ((async_step_user wiz_config entries false download_ok isIp net
        (some ⟨host, none⟩)).result =
      .showForm "user" [("base", "bulb_time_out")]) ∧
    ((async_step_discovery_confirm wiz_config entries true isIp net
        (some device) (some ())).result = .abortFlow "cannot_connect") ∧
    ((async_step_discovery_confirm wiz_config entries false isIp net
        (some device) none).result = .abortFlow "cannot_connect") := by
  refine ⟨?_, ?_, ?_⟩
  · simp [async_step_user, userValidateAndCreate, async_validate_and_connect_bulb,
      hhost, hip, hnet]
  · simp [async_step_discovery_confirm, async_validate_and_connect_bulb,
      hdhost, hdip, hdnet]
  · simp [async_step_discovery_confirm, async_validate_and_connect_bulb,
      hdhost, hdip, hdnet]

/-- Witness for C5 at a concrete host/device with a timing-out
oracle. -/
theorem timeout_interactive_form_passive_abort_witness :
    ("10.0.0.5" ≠ "" ∧ ipYes "10.0.0.5" = true ∧
      (fun _ : String => BulbQueryOutcome.timeoutError) "10.0.0.5" =
        .timeoutError ∧
      discDevice.ip_address ≠ "" ∧ ipYes discDevice.ip_address = true ∧
      (fun _ : String => BulbQueryOutcome.timeoutError) discDevice.ip_address =
        .timeoutError) ∧
    ((async_step_user none [] false ipYes ipYes
        (fun _ => .timeoutError) (some ⟨"10.0.0.5", none⟩)).result =
      .showForm "user" [("base", "bulb_time_out")]) ∧
    ((async_step_discovery_confirm none [] true ipYes
        (fun _ => .timeoutError) (some discDevice) (some ())).result =
      .abortFlow "cannot_connect") ∧
    ((async_step_discovery_confirm none [] false ipYes
        (fun _ => .timeoutError) (some discDevice) none).result =
      .abortFlow "cannot_connect") :=
  ⟨⟨by decide, rfl, rfl, by decide, rfl, rfl⟩,
   timeout_interactive_form_passive_abort none [] ipYes ipYes
     (fun _ => .timeoutError) "10.0.0.5" discDevice (by decide) rfl rfl
     (by decide) rfl rfl⟩

/-! ### C6 -/

/-- C6 counterexample: submitting an empty host in the user step does
not leave the `user` step — the form is re-presented with the
field-level error `host_required`; there is no transition to a
scan-based selection step. -/
theorem user_step_empty_host_counterexample :
    async_step_user none [] false ipYes ipYes netSuccess (some ⟨"", none⟩) =
      ⟨.showForm "user" [(CONF_HOST, "host_required")], false, []⟩ := by
  decide

/-- C6 (amended): submitting an empty host input keeps the flow in the
user step: the `user` form is re-presented with the field-level error
`host_required` and no device connection is attempted; the flow is not
redirected to any discovery/scan step. -/
theorem user_step_empty_host_re_presents_form :
    (∀ (wiz_config : Option WizConfig) (entries : List ConfigEntry)
        (download_ok isIp : String → Bool) (net : String → BulbQueryOutcome)
        (link : Option String),
      async_step_user wiz_config entries false download_ok isIp net
          (some ⟨"", link⟩) =
        ⟨.showForm "user" [(CONF_HOST, "host_required")], false, []⟩) ∧
    (∀ (wiz_config : Option WizConfig) (entries : List ConfigEntry)
        (download_ok isIp : String → Bool) (net : String → BulbQueryOutcome)
        (link : String),
      validate_wiz_home_link link = true → download_ok link = true →
      async_step_user wiz_config entries true download_ok isIp net
          (some ⟨"", some link⟩) =
        ⟨.showForm "user" [(CONF_HOST, "host_required")], true, []⟩) := by
  constructor
  · intro wiz_config entries download_ok isIp net link
    simp [async_step_user, userValidateAndCreate, async_validate_and_connect_bulb]
  · intro wiz_config entries download_ok isIp net link hlink hdl
    unfold validate_wiz_home_link at hlink
    simp [async_step_user, userValidateAndCreate, async_validate_and_connect_bulb,
      hlink, hdl]

/-- Witness for C6 (amended): empty host during first-time setup with
an allow-listed, downloadable link. -/
theorem user_step_empty_host_re_presents_form_witness :
    (validate_wiz_home_link
        "https://wiz-s3-local-integration-dev-artifacts.s3.amazonaws.com/h.json" =
      true ∧
      ipYes "https://wiz-s3-local-integration-dev-artifacts.s3.amazonaws.com/h.json" =
        true) ∧
    async_step_user none [] true ipYes ipYes netSuccess
        (some ⟨"",
          some "https://wiz-s3-local-integration-dev-artifacts.s3.amazonaws.com/h.json"⟩) =
      ⟨.showForm "user" [(CONF_HOST, "host_required")], true, []⟩ :=
  ⟨⟨by decide, rfl⟩,
   user_step_empty_host_re_presents_form.2 none [] ipYes ipYes netSuccess
     "https://wiz-s3-local-integration-dev-artifacts.s3.amazonaws.com/h.json"
     (by decide) rfl⟩

/-! ### C7 -/

/-- The user step reports the `downloaded` flag it was handed through
every branch of the validation tail. -/
theorem userValidateAndCreate_downloaded (wiz_config : Option WizConfig)
    (entries : List ConfigEntry) (isIp : String → Bool)
    (net : String → BulbQueryOutcome) (host : String) (d : Bool) :
    (userValidateAndCreate wiz_config entries isIp net host d).downloaded = d := by
  simp only [userValidateAndCreate]
  split <;> rfl

/-- C7: a home link that does not start with the allow-listed prefix
is rejected with the base-level error `invalid_link` and no download
is attempted; conversely, on every run of the user step, a download
can only have been attempted for a link passing the allow-list
check. -/
theorem wiz_home_link_allow_list :
    (∀ (wiz_config : Option WizConfig) (entries : List ConfigEntry)
        (download_ok isIp : String → Bool) (net : String → BulbQueryOutcome)
        (host : String) (link : String),
      validate_wiz_home_link link = false →
      async_step_user wiz_config entries true download_ok isIp net
          (some ⟨host, some link⟩) =
        ⟨.showForm "user" [("base", "invalid_link")], false, []⟩) ∧
    (∀ (wiz_config : Option WizConfig) (entries : List ConfigEntry)
        (first_setup : Bool) (download_ok isIp : String → Bool)
        (net : String → BulbQueryOutcome) (input : UserInput),
      (async_step_user wiz_config entries first_setup download_ok isIp net
        (some input)).downloaded = true →
      validate_wiz_home_link (input.wiz_link.getD "") = true) := by
  constructor
  · intro wiz_config entries download_ok isIp net host link hlink
    unfold validate_wiz_home_link at hlink
    simp [async_step_user, hlink]
  · intro wiz_config entries first_setup download_ok isIp net input h
    unfold validate_wiz_home_link
    cases first_setup with
    | false =>
      rw [show (async_step_user wiz_config entries false download_ok isIp net
          (some input)).downloaded = false by
        simp [async_step_user, userValidateAndCreate_downloaded]] at h
      exact absurd h (by simp)
    | true =>
      by_cases hpre :
        startswith (input.wiz_link.getD "")
          "https://wiz-s3-local-integration-dev-artifacts" = false
      · rw [show (async_step_user wiz_config entries true download_ok isIp net
            (some input)).downloaded = false by
          simp [async_step_user, hpre]] at h
        exact absurd h (by simp)
      · simpa using hpre

/-- Witness for C7 at the spec's rejected link
`"http://evil.example/x"`. -/
theorem wiz_home_link_allow_list_witness :
    validate_wiz_home_link "http://evil.example/x" = false ∧
    async_step_user none [] true ipYes ipYes netSuccess
        (some ⟨"10.0.0.5", some "http://evil.example/x"⟩) =
      ⟨.showForm "user" [("base", "invalid_link")], false, []⟩ :=
  ⟨by decide,
   wiz_home_link_allow_list.1 none [] ipYes ipYes netSuccess "10.0.0.5"
     "http://evil.example/x" (by decide)⟩

/-! ### C9 -/

/-- C9: the validator never releases the bulb network resource: no
exit path of `async_validate_and_connect_bulb` emits a `closed` event,
and on a successful round-trip the connection has been acquired
(`opened`) and is left open at return.  (The claim says the resource
is released on every exit path; no branch of the source closes the
`wizlight` handle.) -/
theorem validate_never_closes_connection :
    (∀ (isIp : String → Bool) (net : String → BulbQueryOutcome) (host : String),
      BulbEvent.closed ∉ (async_validate_and_connect_bulb isIp net host).events) ∧
    (async_validate_and_connect_bulb ipYes netSuccess "192.168.0.5").events =
      [BulbEvent.opened] := by
  constructor
  · intro isIp net host
    unfold async_validate_and_connect_bulb
    split
    · simp
    · split
      · simp
      · cases net host <;> simp
  · rfl

end Wiz

